import Mathlib

/-!
Shallow embedding of the authentication and lockout core of the Sugo backend:
the SuperAdmin login controller with failed-attempt counting and timed
account lockout, the password-reset token lifecycle, and the bearer-token
authorization middleware. Timestamps are naturals in milliseconds
(the value of Date.now in the source); external collaborators (bcrypt hash
comparison, the password-strength regular expression, the secure random
token generator, the document store lookup, the email sender) are passed in
as parameters, mirroring the boundary the source draws around them.
-/

namespace Sugo

/-- Lockout-relevant fields of a SuperAdmin document, as created by
registerSuperAdmin and mutated by the login, logout and password-reset
controllers. Field names follow the source schema. -/
structure SuperAdminAcct where
  id : String
  email : String
  passwordHash : String
  isActive : Bool
  loginAttempts : Nat
  lockUntil : Option Nat
  lastLogin : Option Nat
  sessionId : Option String
  passwordResetToken : Option String
  passwordResetExpires : Option Nat
  passwordChangedAt : Option Nat
  deriving Repr, DecidableEq

/-- JavaScript truthiness of an optional string: undefined/null and the
empty string are falsy. -/
def strTruthy : Option String → Bool
  | none => false
  | some s => s ≠ ""

/-- JavaScript truthiness of an optional number: undefined/null and 0 are
falsy. -/
def natTruthy : Option Nat → Bool
  | none => false
  | some n => n ≠ 0

/-- Math.ceil of a natural division: ceilDiv a b is the least n with
a ≤ n * b when b is positive. The source computes
Math.ceil((lockUntil - Date.now()) / 60000). -/
def ceilDiv (a b : Nat) : Nat := (a + b - 1) / b

/-- Outcome of the loginSuperAdmin controller, one constructor per
response the source can send (the 500 branches for store or signing
failures are infrastructure errors outside the sequential model). -/
inductive LoginResult where
  | missingFields
  | invalidNoAccount
  | lockedRemaining (minutes : Nat)
  | lockedNow
  | invalidWithAttempts (attempts : Nat)
  | success (sessionId : String) (iat exp : Nat)
  deriving Repr, DecidableEq

/-- The literal response message of each login outcome, from the source. -/
def LoginResult.message : LoginResult → String
  | .missingFields => "Email and password are required"
  | .invalidNoAccount => "Invalid credentials"
  | .lockedRemaining m => "Account locked. Try again in " ++ toString m ++ " minutes."
  | .lockedNow => "Too many failed login attempts. Account locked for 30 minutes."
  | .invalidWithAttempts _ => "Invalid credentials"
  | .success _ _ _ => "Super Admin login successfully!"

/-- The HTTP status of each login outcome, from the source. -/
def LoginResult.status : LoginResult → Nat
  | .missingFields => 400
  | .invalidNoAccount => 401
  | .lockedRemaining _ => 423
  | .lockedNow => 423
  | .invalidWithAttempts _ => 401
  | .success _ _ _ => 200

/-- The attempts field carried by the response body: only the
wrong-password branch includes one. -/
def LoginResult.attemptsField : LoginResult → Option Nat
  | .invalidWithAttempts n => some n
  | _ => none

/-- Credential-comparison phase of loginSuperAdmin, entered once the lock
check has passed: bcrypt.compare of the submitted password against the
stored hash, then either the atomic increment-and-maybe-lock on failure or
the atomic session/lockout reset on success. compare abstracts
bcrypt.compare, fresh is the generateSecureToken result, now is Date.now
in milliseconds. -/
def loginCredentialPhase (a : SuperAdminAcct) (password : String)
    (compare : String → String → Bool) (now : Nat) (fresh : String) :
    LoginResult × SuperAdminAcct :=
  if compare password a.passwordHash then
    (.success fresh (now / 1000) (now / 1000 + 3600),
     { a with loginAttempts := 0, lockUntil := none,
              lastLogin := some now, sessionId := some fresh })
  else
    if 3 ≤ a.loginAttempts + 1 then
      (.lockedNow,
       { a with loginAttempts := a.loginAttempts + 1,
                lockUntil := some (now + 30 * 60 * 1000) })
    else
      (.invalidWithAttempts (a.loginAttempts + 1),
       { a with loginAttempts := a.loginAttempts + 1 })

/-- The loginSuperAdmin controller: presence check on email and password,
account lookup (passed in as its result), lock check, expired-lock
clearing, then the credential phase. Returns the response outcome and the
post-state of the matched account record. -/
def loginSuperAdmin (email? password? : Option String)
    (acct? : Option SuperAdminAcct) (compare : String → String → Bool)
    (now : Nat) (fresh : String) : LoginResult × Option SuperAdminAcct :=
  if ¬ (strTruthy email? ∧ strTruthy password?) then
    (.missingFields, acct?)
  else
    match acct? with
    | none => (.invalidNoAccount, none)
    | some a =>
      match a.lockUntil with
      | some lu =>
        if now < lu then
          (.lockedRemaining (ceilDiv (lu - now) 60000), some a)
        else
          let r := loginCredentialPhase
            { a with loginAttempts := 0, lockUntil := none }
            (password?.getD "") compare now fresh
          (r.1, some r.2)
      | none =>
        let r := loginCredentialPhase a (password?.getD "") compare now fresh
        (r.1, some r.2)

/-- The registerSuperAdmin controller initializes the lockout, session and
reset fields of a fresh account: loginAttempts 0, lockUntil null, session
and reset fields at their schema defaults (null). -/
def registerSuperAdmin (id email hashedPassword : String) : SuperAdminAcct :=
  { id := id, email := email, passwordHash := hashedPassword,
    isActive := true, loginAttempts := 0, lockUntil := none,
    lastLogin := none, sessionId := none, passwordResetToken := none,
    passwordResetExpires := none, passwordChangedAt := none }

/-- The logoutSuperAdmin controller rotates the session id to a freshly
generated opaque token. -/
def logoutSuperAdmin (a : SuperAdminAcct) (fresh : String) : SuperAdminAcct :=
  { a with sessionId := some fresh }

/-- Outcome of the forgotPassword controller, one constructor per response
branch of the source. -/
inductive ForgotResult where
  | missingEmail
  | genericSuccess
  | emailSendFailed
  | linkSent
  deriving Repr, DecidableEq

/-- The literal response message of each forgotPassword outcome. -/
def ForgotResult.message : ForgotResult → String
  | .missingEmail => "Email is required"
  | .genericSuccess =>
      "If an account with that email exists, a password reset link has been sent"
  | .emailSendFailed => "Failed to send password reset email"
  | .linkSent => "Link sent successfully! Please check your email"

/-- The HTTP status of each forgotPassword outcome. -/
def ForgotResult.status : ForgotResult → Nat
  | .missingEmail => 400
  | .genericSuccess => 200
  | .emailSendFailed => 500
  | .linkSent => 200

/-- The forgotPassword controller: on a matching email it stores a fresh
reset token with a one-hour expiry and invokes the email collaborator
(whose success is the emailSent parameter); on no match it answers with
the generic message and touches nothing. -/
def forgotPassword (email? : Option String) (acct? : Option SuperAdminAcct)
    (freshToken : String) (now : Nat) (emailSent : Bool) :
    ForgotResult × Option SuperAdminAcct :=
  if ¬ strTruthy email? then
    (.missingEmail, acct?)
  else
    match acct? with
    | none => (.genericSuccess, none)
    | some a =>
      let a' := { a with passwordResetToken := some freshToken,
                         passwordResetExpires := some (now + 3600000) }
      if emailSent then (.linkSent, some a') else (.emailSendFailed, some a')

/-- Outcome of the resetPasswordWithToken controller. -/
inductive ResetResult where
  | missingFields
  | weakPassword
  | invalidOrExpiredToken
  | samePassword
  | resetOk
  deriving Repr, DecidableEq

/-- The dollar-gt filter of the store query: a stored reset expiry matches
only when present and strictly greater than Date.now. -/
def resetExpiryLive (e? : Option Nat) (now : Nat) : Bool :=
  match e? with
  | some e => now < e
  | none => false

/-- The store query of the reset controllers: findOne on
passwordResetToken equal to the submitted token with passwordResetExpires
strictly greater than Date.now. -/
def findByResetToken (acct? : Option SuperAdminAcct) (token : String)
    (now : Nat) : Option SuperAdminAcct :=
  match acct? with
  | none => none
  | some a =>
    if a.passwordResetToken = some token ∧
        resetExpiryLive a.passwordResetExpires now then
      some a
    else none

/-- The resetPasswordWithToken controller: presence and strength checks on
the new password (passwordOk abstracts the password-strength regular
expression from the password helper, which is outside the captured
sources), token lookup with expiry, rejection of a password equal to the
current one, then the atomic replace-hash, clear-reset-fields,
rotate-session update. -/
def resetPasswordWithToken (token? newPassword? : Option String)
    (acct? : Option SuperAdminAcct) (passwordOk : String → Bool)
    (compare : String → String → Bool) (hash : String → String)
    (now : Nat) (freshSession : String) : ResetResult × Option SuperAdminAcct :=
  if ¬ (strTruthy token? ∧ strTruthy newPassword?) then
    (.missingFields, acct?)
  else if ¬ passwordOk (newPassword?.getD "") then
    (.weakPassword, acct?)
  else
    match findByResetToken acct? (token?.getD "") now with
    | none => (.invalidOrExpiredToken, acct?)
    | some a =>
      if compare (newPassword?.getD "") a.passwordHash then
        (.samePassword, acct?)
      else
        (.resetOk,
         some { a with passwordHash := hash (newPassword?.getD ""),
                       passwordResetToken := none,
                       passwordResetExpires := none,
                       passwordChangedAt := some now,
                       sessionId := some freshSession })

/-- Fields of a User document the authorization middleware reads. The user
schema defines accountStatus (ACTIVE, SUSPENDED, BANNED) for moderation;
it defines no isActive path. -/
structure UserAcct where
  id : String
  email : String
  accountStatus : String
  deriving Repr, DecidableEq

/-- A document as the middleware sees it after the role-based store
lookup. isActive is none when the schema of the queried collection
defines no such path, so that the property reads as undefined. -/
structure ResolvedAccount where
  id : String
  email : String
  isActive : Option Bool
  deriving Repr, DecidableEq

/-- A SuperAdmin document exposes its isActive flag to the middleware. -/
def SuperAdminAcct.resolve (a : SuperAdminAcct) : ResolvedAccount :=
  { id := a.id, email := a.email, isActive := some a.isActive }

/-- A User document exposes no isActive flag: the user schema has
accountStatus instead, so reading isActive yields undefined. -/
def UserAcct.resolve (u : UserAcct) : ResolvedAccount :=
  { id := u.id, email := u.email, isActive := none }

/-- Claims of a decoded bearer token after signature verification, each
optional because the structural check inspects presence (by JavaScript
truthiness). iat and exp are in seconds. -/
structure TokenPayload where
  userId : Option String
  role : Option String
  sessionId : Option String
  iat : Option Nat
  exp : Option Nat
  deriving Repr, DecidableEq

/-- Outcome of the authorization middleware, one constructor per response
branch of the source after signature verification. -/
inductive AuthResult where
  | invalidStructure
  | expired
  | tooOld
  | invalidRole
  | userNotFound
  | deactivated
  | authorized (id role email : String) (sessionId : Option String)
  deriving Repr, DecidableEq

/-- Role-to-store dispatch of the middleware: the role string selects the
collection to query; any other role value is rejected. -/
inductive RoleLookup where
  | invalidRole
  | notFound
  | found (r : ResolvedAccount)
  deriving Repr, DecidableEq

/-- Resolve the token subject through the collection selected by the role
claim: SUPERADMIN queries the SuperAdmin store, USER the User store. -/
def resolveByRole (role userId : String)
    (findSuperAdmin : String → Option SuperAdminAcct)
    (findUser : String → Option UserAcct) : RoleLookup :=
  match role with
  | "SUPERADMIN" =>
    match findSuperAdmin userId with
    | none => .notFound
    | some a => .found a.resolve
  | "USER" =>
    match findUser userId with
    | none => .notFound
    | some u => .found u.resolve
  | _ => .invalidRole

/-- The sessionId || null normalization of the attached identity. -/
def jsOrNull (s? : Option String) : Option String :=
  if strTruthy s? then s? else none

/-- The authorization middleware after signature verification: structural
completeness of the claims, expiry against Date.now, the 24-hour absolute
age ceiling on iat, role-based store lookup, then the deactivated-account
check reading the isActive property of the resolved document. nowMs is
Date.now in milliseconds while iat and exp are in seconds, so the source
comparisons against Date.now divided by 1000 are scaled by 1000 here. -/
def authMiddleware (payload : TokenPayload) (nowMs : Nat)
    (findSuperAdmin : String → Option SuperAdminAcct)
    (findUser : String → Option UserAcct) : AuthResult :=
  if ¬ (strTruthy payload.userId ∧ strTruthy payload.role ∧
        natTruthy payload.iat ∧ natTruthy payload.exp) then
    .invalidStructure
  else if payload.exp.getD 0 * 1000 < nowMs then
    .expired
  else if (payload.iat.getD 0 + 24 * 60 * 60) * 1000 < nowMs then
    .tooOld
  else
    match resolveByRole (payload.role.getD "") (payload.userId.getD "")
        findSuperAdmin findUser with
    | .invalidRole => .invalidRole
    | .notFound => .userNotFound
    | .found r =>
      if r.isActive = some false then
        .deactivated
      else
        .authorized r.id (payload.role.getD "") r.email (jsOrNull payload.sessionId)

/-- The inductive lockout invariant of the sequential model: the
failed-attempt counter never exceeds the threshold 3, and an account whose
counter sits at 3 always carries a lock timestamp. -/
def LockoutInv (a : SuperAdminAcct) : Prop :=
  a.loginAttempts ≤ 3 ∧ (a.loginAttempts = 3 → a.lockUntil ≠ none)

/-- A concrete account at its post-registration state, used to instantiate
the theorems below. -/
def sampleAcct : SuperAdminAcct :=
  { id := "id1", email := "a@x.com", passwordHash := "H",
    isActive := true, loginAttempts := 0, lockUntil := none,
    lastLogin := none, sessionId := none, passwordResetToken := none,
    passwordResetExpires := none, passwordChangedAt := none }

/-- A concrete account locked until timestamp 1800000. -/
def lockedSampleAcct : SuperAdminAcct :=
  { sampleAcct with loginAttempts := 3, lockUntil := some 1800000 }

/-- C1: when a failed credential comparison raises the failed-attempt
counter to the threshold 3, loginSuperAdmin sets the lock timestamp to
now plus 30 minutes and answers with the account-locked message; and while
the lock timestamp is still in the future every attempt is denied,
whatever the comparison function says about the password. -/
theorem login_threshold_locks_and_future_lock_denies
    (email password fresh : String) (a : SuperAdminAcct)
    (compare : String → String → Bool) (now : Nat)
    (he : email ≠ "") (hp : password ≠ "") :
    (a.lockUntil = none → a.loginAttempts = 2 →
      compare password a.passwordHash = false →
      loginSuperAdmin (some email) (some password) (some a) compare now fresh =
        (.lockedNow,
         some { a with loginAttempts := 3,
                       lockUntil := some (now + 30 * 60 * 1000) }) ∧
      LoginResult.lockedNow.message =
        "Too many failed login attempts. Account locked for 30 minutes.") ∧
    (∀ lu, a.lockUntil = some lu → now < lu →
      loginSuperAdmin (some email) (some password) (some a) compare now fresh =
        (.lockedRemaining (ceilDiv (lu - now) 60000), some a)) := by
  constructor
  · intro hnone h2 hfail
    refine ⟨?_, rfl⟩
    simp [loginSuperAdmin, strTruthy, he, hp, hnone, loginCredentialPhase,
      hfail, h2]
  · intro lu hlu hfut
    simp [loginSuperAdmin, strTruthy, he, hp, hlu, hfut]

/-- Witness for C1 at a concrete locked account: the attempt at time 0
against a lock expiring at 1800000 is denied with 30 minutes remaining,
even though the supplied comparison accepts every password. -/
theorem login_threshold_locks_and_future_lock_denies_witness :
    loginSuperAdmin (some "a@x.com") (some "pw") (some lockedSampleAcct)
        (fun _ _ => true) 0 "s" =
      (.lockedRemaining 30, some lockedSampleAcct) := by
  have h := login_threshold_locks_and_future_lock_denies "a@x.com" "pw" "s"
    lockedSampleAcct (fun _ _ => true) 0 (by decide) (by decide)
  have h2 := h.2 1800000 rfl (by decide)
  simpa using h2

/-- C7: while lockUntil is set and in the future, loginSuperAdmin denies
without consulting the comparison function, reports the remaining lock
time as the ceiling of the remaining milliseconds over 60000, and leaves
the account record untouched. -/
theorem login_future_lock_denies_without_comparison
    (email password fresh : String) (a : SuperAdminAcct)
    (compare : String → String → Bool) (now lu : Nat)
    (he : email ≠ "") (hp : password ≠ "")
    (hlu : a.lockUntil = some lu) (hfut : now < lu) :
    loginSuperAdmin (some email) (some password) (some a) compare now fresh =
      (.lockedRemaining (ceilDiv (lu - now) 60000), some a) ∧
    lu - now ≤ ceilDiv (lu - now) 60000 * 60000 ∧
    (ceilDiv (lu - now) 60000 - 1) * 60000 < lu - now := by
  refine ⟨?_, ?_, ?_⟩
  · simp [loginSuperAdmin, strTruthy, he, hp, hlu, hfut]
  · simp only [ceilDiv]
    omega
  · simp only [ceilDiv]
    omega

/-- Witness for C7: a lock with 61 seconds remaining is reported as 2
minutes, the account record unchanged. -/
theorem login_future_lock_denies_without_comparison_witness :
    loginSuperAdmin (some "a@x.com") (some "pw") (some lockedSampleAcct)
        (fun _ _ => true) 1739000 "s" =
      (.lockedRemaining 2, some lockedSampleAcct) ∧
    1800000 - 1739000 ≤ 2 * 60000 ∧ (2 - 1) * 60000 < 1800000 - 1739000 := by
  have h := login_future_lock_denies_without_comparison "a@x.com" "pw" "s"
    lockedSampleAcct (fun _ _ => true) 1739000 1800000 (by decide) (by decide)
    rfl (by decide)
  simpa [ceilDiv] using h

/-- C3: a verified, structurally complete bearer token whose expiry has
not passed is still rejected by the middleware as too old whenever its
iat predates Date.now by more than 24 hours. -/
theorem authMiddleware_rejects_too_old
    (payload : TokenPayload) (nowMs : Nat)
    (findSuperAdmin : String → Option SuperAdminAcct)
    (findUser : String → Option UserAcct)
    (huid : strTruthy payload.userId) (hrole : strTruthy payload.role)
    (hiat : natTruthy payload.iat) (hexp : natTruthy payload.exp)
    (hnotexpired : ¬ payload.exp.getD 0 * 1000 < nowMs)
    (hold : (payload.iat.getD 0 + 24 * 60 * 60) * 1000 < nowMs) :
    authMiddleware payload nowMs findSuperAdmin findUser = .tooOld := by
  simp [authMiddleware, huid, hrole, hiat, hexp, hnotexpired, hold]

/-- A concrete token payload with iat 25 hours in the past and exp one
hour in the future relative to Date.now at 100 hours. -/
def oldTokenPayload : TokenPayload :=
  { userId := some "u1", role := some "SUPERADMIN", sessionId := none,
    iat := some 270000, exp := some 363600 }

/-- Witness for C3: with Date.now at 100 hours (360000000 ms), a token
issued at 75 hours (25 hours old) expiring at 101 hours is rejected as
too old despite not being expired. -/
theorem authMiddleware_rejects_too_old_witness :
    authMiddleware oldTokenPayload 360000000 (fun _ => none) (fun _ => none) =
      .tooOld := by
  exact authMiddleware_rejects_too_old oldTokenPayload 360000000
    (fun _ => none) (fun _ => none) (by decide) (by decide) (by decide)
    (by decide) (by decide) (by decide)

/-- C4: a successful login leaves the matched account with loginAttempts
0, lockUntil null, lastLogin set to now and the freshly minted session id,
and the issued response embeds that same session id; when the generator
output differs from the prior session id, the stored session id changes. -/
theorem login_success_resets_state
    (email password fresh : String) (a : SuperAdminAcct)
    (compare : String → String → Bool) (now : Nat)
    (he : email ≠ "") (hp : password ≠ "")
    (hmatch : compare password a.passwordHash = true)
    (hnl : ∀ lu, a.lockUntil = some lu → lu ≤ now) :
    loginSuperAdmin (some email) (some password) (some a) compare now fresh =
      (.success fresh (now / 1000) (now / 1000 + 3600),
       some { a with loginAttempts := 0, lockUntil := none,
                     lastLogin := some now, sessionId := some fresh }) ∧
    (a.sessionId ≠ some fresh →
      (some fresh : Option String) ≠ a.sessionId) := by
  refine ⟨?_, fun h => fun hh => h hh.symm⟩
  cases hlu : a.lockUntil with
  | none =>
    simp [loginSuperAdmin, strTruthy, he, hp, hlu, loginCredentialPhase, hmatch]
  | some lu =>
    have hle : lu ≤ now := hnl lu hlu
    have : ¬ now < lu := by omega
    simp [loginSuperAdmin, strTruthy, he, hp, hlu, this, loginCredentialPhase,
      hmatch]

/-- Witness for C4 at a concrete account with no prior session. -/
theorem login_success_resets_state_witness :
    loginSuperAdmin (some "a@x.com") (some "pw") (some sampleAcct)
        (fun _ _ => true) 5000 "fresh1" =
      (.success "fresh1" 5 3605,
       some { sampleAcct with loginAttempts := 0, lockUntil := none,
                              lastLogin := some 5000,
                              sessionId := some "fresh1" }) := by
  have h := login_success_resets_state "a@x.com" "pw" "fresh1" sampleAcct
    (fun _ _ => true) 5000 (by decide) (by decide) rfl (by intro lu h; cases h)
  simpa using h.1

/-- C5: when lockUntil is set but already passed, loginSuperAdmin clears
the counter and the lock before comparing credentials, so a failed attempt
counts 1 in a fresh window whatever the prior counter was, and a correct
password succeeds. -/
theorem login_expired_lock_fresh_window
    (email password fresh : String) (a : SuperAdminAcct)
    (compare : String → String → Bool) (now lu : Nat)
    (he : email ≠ "") (hp : password ≠ "")
    (hlu : a.lockUntil = some lu) (hpast : lu ≤ now) :
    (compare password a.passwordHash = false →
      loginSuperAdmin (some email) (some password) (some a) compare now fresh =
        (.invalidWithAttempts 1,
         some { a with loginAttempts := 1, lockUntil := none })) ∧
    (compare password a.passwordHash = true →
      loginSuperAdmin (some email) (some password) (some a) compare now fresh =
        (.success fresh (now / 1000) (now / 1000 + 3600),
         some { a with loginAttempts := 0, lockUntil := none,
                       lastLogin := some now, sessionId := some fresh })) := by
  have hnf : ¬ now < lu := by omega
  constructor
  · intro hfail
    simp [loginSuperAdmin, strTruthy, he, hp, hlu, hnf, loginCredentialPhase,
      hfail]
  · intro hok
    simp [loginSuperAdmin, strTruthy, he, hp, hlu, hnf, loginCredentialPhase,
      hok]

/-- Witness for C5: an account whose lock expired at 1800000, observed at
2000000 with a wrong password, ends at one failed attempt in a fresh
window even though its counter stood at 3. -/
theorem login_expired_lock_fresh_window_witness :
    loginSuperAdmin (some "a@x.com") (some "pw") (some lockedSampleAcct)
        (fun _ _ => false) 2000000 "s" =
      (.invalidWithAttempts 1,
       some { lockedSampleAcct with loginAttempts := 1, lockUntil := none }) := by
  have h := login_expired_lock_fresh_window "a@x.com" "pw" "s" lockedSampleAcct
    (fun _ _ => false) 2000000 1800000 (by decide) (by decide) rfl (by decide)
  exact h.1 rfl

/-- C8: an unknown email is answered with the same generic
invalid-credentials message as a wrong password but with no attempts field
and nothing to mutate; and a missing email or password terminates with the
validation error for every store content, the store untouched. -/
theorem login_unknown_email_and_missing_fields
    (email password fresh : String)
    (compare : String → String → Bool) (now : Nat)
    (he : email ≠ "") (hp : password ≠ "") :
    (loginSuperAdmin (some email) (some password) none compare now fresh =
        (.invalidNoAccount, none) ∧
      (∀ n, LoginResult.message .invalidNoAccount =
        LoginResult.message (.invalidWithAttempts n)) ∧
      LoginResult.attemptsField .invalidNoAccount = none) ∧
    (∀ email? password? acct?,
      (strTruthy email? = false ∨ strTruthy password? = false) →
      loginSuperAdmin email? password? acct? compare now fresh =
        (.missingFields, acct?)) := by
  constructor
  · exact ⟨by simp [loginSuperAdmin, strTruthy, he, hp], fun n => rfl, rfl⟩
  · intro email? password? acct? hmiss
    cases hmiss with
    | inl h => simp [loginSuperAdmin, h]
    | inr h => simp [loginSuperAdmin, h]

/-- Witness for C8: concrete unknown-email and missing-password calls. -/
theorem login_unknown_email_and_missing_fields_witness :
    loginSuperAdmin (some "a@x.com") (some "pw") none (fun _ _ => false) 0 "s" =
      (.invalidNoAccount, none) ∧
    loginSuperAdmin (some "a@x.com") none (some sampleAcct)
        (fun _ _ => false) 0 "s" = (.missingFields, some sampleAcct) := by
  have h := login_unknown_email_and_missing_fields "a@x.com" "pw" "s"
    (fun _ _ => false) 0 (by decide) (by decide)
  exact ⟨h.1.1, h.2 (some "a@x.com") none (some sampleAcct) (Or.inr rfl)⟩

/-- C2 counterexample: at the same request (email a@x.com, time 0, fresh
token tok, email delivery succeeding), the response when no account
matches is the generic message while the response on a match is the
distinct link-sent message, so an observer distinguishes the two cases. -/
theorem forgotPassword_responses_distinguishable :
    (forgotPassword (some "a@x.com") none "tok" 0 true).1 = .genericSuccess ∧
    (forgotPassword (some "a@x.com") (some sampleAcct) "tok" 0 true).1 =
      .linkSent ∧
    ForgotResult.genericSuccess.message ≠ ForgotResult.linkSent.message ∧
    ForgotResult.genericSuccess.status = 200 ∧
    (forgotPassword (some "a@x.com") (some sampleAcct) "tok" 0 false).1.status =
      500 := by
  exact ⟨rfl, rfl, by decide, rfl, rfl⟩

/-- C2 amended: a non-matching email is always answered with the generic
message and no state change, independent of the email collaborator; only a
match mints a reset token with a one-hour expiry and invokes the
collaborator, but the match responses differ from the generic message. -/
theorem forgotPassword_match_only_mints_token
    (email freshToken : String) (now : Nat) (emailSent : Bool)
    (he : email ≠ "") :
    (∀ es, forgotPassword (some email) none freshToken now es =
      (.genericSuccess, none)) ∧
    (∀ a, forgotPassword (some email) (some a) freshToken now emailSent =
        ((if emailSent then .linkSent else .emailSendFailed),
         some { a with passwordResetToken := some freshToken,
                       passwordResetExpires := some (now + 3600000) }) ∧
      (if emailSent then ForgotResult.linkSent else .emailSendFailed) ≠
        .genericSuccess) := by
  constructor
  · intro es
    simp [forgotPassword, strTruthy, he]
  · intro a
    constructor
    · cases emailSent <;> simp [forgotPassword, strTruthy, he]
    · cases emailSent <;> decide

/-- Witness for the amended C2 at concrete inputs. -/
theorem forgotPassword_match_only_mints_token_witness :
    forgotPassword (some "a@x.com") (some sampleAcct) "tok" 0 true =
      (.linkSent,
       some { sampleAcct with passwordResetToken := some "tok",
                              passwordResetExpires := some 3600000 }) := by
  have h := forgotPassword_match_only_mints_token "a@x.com" "tok" 0 true
    (by decide)
  simpa using (h.2 sampleAcct).1

/-- C6: a consumed reset token is single-use: a successful consumption
replaces the hash and clears both reset fields together, and a second
consumption attempt with the same token on the resulting account fails as
an invalid token, whatever the later clock, comparison or hash. -/
theorem reset_token_single_use
    (token newPass newPass2 : String) (acct? : Option SuperAdminAcct)
    (passwordOk passwordOk2 : String → Bool)
    (compare compare2 : String → String → Bool)
    (hash hash2 : String → String)
    (now now2 : Nat) (fresh fresh2 : String) (a' : SuperAdminAcct)
    (h1 : resetPasswordWithToken (some token) (some newPass) acct?
        passwordOk compare hash now fresh = (.resetOk, some a'))
    (ht : token ≠ "") (hp2 : newPass2 ≠ "")
    (hok2 : passwordOk2 newPass2 = true) :
    a'.passwordResetToken = none ∧ a'.passwordResetExpires = none ∧
    a'.passwordHash = hash newPass ∧
    resetPasswordWithToken (some token) (some newPass2) (some a')
        passwordOk2 compare2 hash2 now2 fresh2 =
      (.invalidOrExpiredToken, some a') := by
  unfold resetPasswordWithToken at h1
  split at h1
  · simp at h1
  · split at h1
    · simp at h1
    · split at h1
      · simp at h1
      · split at h1
        · simp at h1
        · rw [Prod.mk.injEq] at h1
          obtain ⟨-, h1⟩ := h1
          rw [Option.some.injEq] at h1
          subst h1
          refine ⟨rfl, rfl, rfl, ?_⟩
          simp [resetPasswordWithToken, strTruthy, ht, hp2, hok2,
            findByResetToken]

/-- A concrete account holding the live reset token tok expiring at
timestamp 100. -/
def resetReadyAcct : SuperAdminAcct :=
  { sampleAcct with passwordResetToken := some "tok",
                    passwordResetExpires := some 100 }

/-- The state of resetReadyAcct after its token is consumed at time 0
with new password Aa1 and fresh session f2 under an identity hash. -/
def consumedAcct : SuperAdminAcct :=
  { sampleAcct with
      passwordHash := "Aa1",
      passwordChangedAt := some 0,
      sessionId := some "f2" }

/-- Witness for C6: consuming the token at time 0 succeeds, clears both
reset fields, replaces the hash, and the immediate second consumption of
the same token fails as invalid. -/
theorem reset_token_single_use_witness :
    consumedAcct.passwordResetToken = none ∧
    consumedAcct.passwordResetExpires = none ∧
    consumedAcct.passwordHash = (fun s => s) "Aa1" ∧
    resetPasswordWithToken (some "tok") (some "Bb2") (some consumedAcct)
        (fun _ => true) (fun _ _ => false) (fun s => s) 1 "f3" =
      (.invalidOrExpiredToken, some consumedAcct) := by
  exact reset_token_single_use "tok" "Aa1" "Bb2"
    (some resetReadyAcct) (fun _ => true) (fun _ => true)
    (fun _ _ => false) (fun _ _ => false) (fun s => s) (fun s => s) 0 1
    "f2" "f3" consumedAcct (by decide) (by decide) (by decide) rfl

/-- A concrete banned user document: accountStatus BANNED, and the user
schema defines no isActive path. -/
def bannedUser : UserAcct :=
  { id := "u9", email := "b@x.com", accountStatus := "BANNED" }

/-- C9: for a USER-role token passing structure, expiry and age checks
whose subject resolves to an existing User document, the middleware
deactivation check compares an isActive property the user schema does not
define, so the gate authorizes whatever the accountStatus moderation
state, BANNED and SUSPENDED included. -/
theorem authMiddleware_user_ignores_accountStatus
    (payload : TokenPayload) (nowMs : Nat)
    (findSuperAdmin : String → Option SuperAdminAcct)
    (findUser : String → Option UserAcct) (u : UserAcct)
    (huid : strTruthy payload.userId)
    (hrole : payload.role = some "USER")
    (hiat : natTruthy payload.iat) (hexp : natTruthy payload.exp)
    (hnexp : ¬ payload.exp.getD 0 * 1000 < nowMs)
    (hnold : ¬ (payload.iat.getD 0 + 24 * 60 * 60) * 1000 < nowMs)
    (hfind : findUser (payload.userId.getD "") = some u) :
    u.resolve.isActive ≠ some false ∧
    authMiddleware payload nowMs findSuperAdmin findUser =
      .authorized u.id "USER" u.email (jsOrNull payload.sessionId) := by
  refine ⟨by simp [UserAcct.resolve], ?_⟩
  have hroleT : strTruthy payload.role := by
    rw [hrole]
    decide
  have hUSER : strTruthy (some "USER") := by decide
  simp [authMiddleware, huid, hroleT, hiat, hexp, hnexp, hnold, hrole,
    hUSER, resolveByRole, hfind, UserAcct.resolve]

/-- Witness for C9: a valid USER token whose subject is a BANNED user is
authorized by the gate. -/
theorem authMiddleware_user_ignores_accountStatus_witness :
    bannedUser.accountStatus = "BANNED" ∧
    authMiddleware
        { userId := some "u9", role := some "USER", sessionId := none,
          iat := some 1, exp := some 10 } 1000 (fun _ => none)
        (fun i => if i = "u9" then some bannedUser else none) =
      .authorized "u9" "USER" "b@x.com" none := by
  refine ⟨rfl, ?_⟩
  have h := authMiddleware_user_ignores_accountStatus
    { userId := some "u9", role := some "USER", sessionId := none,
      iat := some 1, exp := some 10 } 1000 (fun _ => none)
    (fun i => if i = "u9" then some bannedUser else none) bannedUser
    (by decide) rfl (by decide) (by decide) (by decide) (by decide) (by decide)
  simpa [jsOrNull, strTruthy] using h.2

/-- C10: in the sequential model every operation of the authentication
core preserves the lockout invariant: the counter stays at most 3 and a
counter at 3 always carries a lock timestamp. Registration establishes it;
login, logout, password-reset request and password-reset consumption
preserve it. -/
theorem lockout_invariant_preserved :
    (∀ id email hashed, LockoutInv (registerSuperAdmin id email hashed)) ∧
    (∀ email? password? a compare now fresh r a',
      LockoutInv a →
      loginSuperAdmin email? password? (some a) compare now fresh =
        (r, some a') →
      LockoutInv a') ∧
    (∀ a fresh, LockoutInv a → LockoutInv (logoutSuperAdmin a fresh)) ∧
    (∀ email? a freshToken now emailSent r a',
      LockoutInv a →
      forgotPassword email? (some a) freshToken now emailSent =
        (r, some a') →
      LockoutInv a') ∧
    (∀ token? newPassword? a passwordOk compare hash now fresh r a',
      LockoutInv a →
      resetPasswordWithToken token? newPassword? (some a) passwordOk compare
        hash now fresh = (r, some a') →
      LockoutInv a') := by
  refine ⟨?_, ?_, ?_, ?_, ?_⟩
  · intro id email hashed
    exact ⟨by simp [registerSuperAdmin], by simp [registerSuperAdmin]⟩
  · intro email? password? a compare now fresh r a' hInv h
    unfold loginSuperAdmin at h
    split at h
    · rw [Prod.mk.injEq, Option.some.injEq] at h
      exact h.2 ▸ hInv
    · rename_i hpres
      simp only at h
      cases hlu : a.lockUntil with
      | some lu =>
        rw [hlu] at h
        simp only at h
        split at h
        · rw [Prod.mk.injEq, Option.some.injEq] at h
          exact h.2 ▸ hInv
        · unfold loginCredentialPhase at h
          split at h
          · rw [Prod.mk.injEq, Option.some.injEq] at h
            rw [← h.2]
            exact ⟨by simp, by simp⟩
          · split at h
            · rw [Prod.mk.injEq, Option.some.injEq] at h
              rw [← h.2]
              exact ⟨by simp, by simp⟩
            · rename_i hnotth
              rw [Prod.mk.injEq, Option.some.injEq] at h
              rw [← h.2]
              refine ⟨by simp, ?_⟩
              intro h3
              simp at h3
      | none =>
        rw [hlu] at h
        simp only at h
        unfold loginCredentialPhase at h
        split at h
        · rw [Prod.mk.injEq, Option.some.injEq] at h
          rw [← h.2]
          exact ⟨by simp, by simp⟩
        · rename_i hth
          split at h
          · rw [Prod.mk.injEq, Option.some.injEq] at h
            rw [← h.2]
            refine ⟨?_, by simp⟩
            simp only
            have hne3 : a.loginAttempts ≠ 3 := fun h3 => hInv.2 h3 hlu
            have := hInv.1
            omega
          · rename_i hnotth
            rw [Prod.mk.injEq, Option.some.injEq] at h
            rw [← h.2]
            simp only [not_le] at hnotth
            refine ⟨by simp; omega, ?_⟩
            intro h3
            simp at h3
            omega
  · intro a fresh hInv
    exact hInv
  · intro email? a freshToken now emailSent r a' hInv h
    unfold forgotPassword at h
    split at h
    · rw [Prod.mk.injEq, Option.some.injEq] at h
      exact h.2 ▸ hInv
    · simp only at h
      split at h
      · rw [Prod.mk.injEq, Option.some.injEq] at h
        rw [← h.2]
        exact hInv
      · rw [Prod.mk.injEq, Option.some.injEq] at h
        rw [← h.2]
        exact hInv
  · intro token? newPassword? a passwordOk compare hash now fresh r a' hInv h
    unfold resetPasswordWithToken at h
    split at h
    · rw [Prod.mk.injEq, Option.some.injEq] at h
      exact h.2 ▸ hInv
    · split at h
      · rw [Prod.mk.injEq, Option.some.injEq] at h
        exact h.2 ▸ hInv
      · cases hfound : findByResetToken (some a) (token?.getD "") now with
        | none =>
          rw [hfound] at h
          simp only at h
          rw [Prod.mk.injEq, Option.some.injEq] at h
          exact h.2 ▸ hInv
        | some b =>
          have hb : b = a := by
            unfold findByResetToken at hfound
            simp only at hfound
            split at hfound
            · rw [Option.some.injEq] at hfound
              exact hfound.symm
            · cases hfound
          rw [hfound] at h
          simp only at h
          split at h
          · rw [Prod.mk.injEq, Option.some.injEq] at h
            exact h.2 ▸ hInv
          · rw [Prod.mk.injEq, Option.some.injEq] at h
            rw [← h.2, hb]
            exact ⟨hInv.1, fun h3 => by
              have := hInv.2 h3
              simp [this]⟩

/-- Witness for C10: one failed attempt on the fresh sample account lands
at counter 1, satisfying the invariant. -/
theorem lockout_invariant_preserved_witness :
    LockoutInv { sampleAcct with loginAttempts := 1 } := by
  have hInv : LockoutInv sampleAcct := by
    unfold LockoutInv
    exact ⟨by decide, by decide⟩
  exact lockout_invariant_preserved.2.1 (some "a@x.com") (some "pw")
    sampleAcct (fun _ _ => false) 0 "f" (.invalidWithAttempts 1)
    { sampleAcct with loginAttempts := 1 } hInv (by decide)

end Sugo
